import Mathlib

/-!
Verification development for the ZenML plugin-flavor registry, trigger
entity model and deployment-service locator.

The Python code is shallowly embedded: Python `dict`s become association
lists in insertion order (`dictLookup` / `dictInsert` mirror `d[k]` and
`d[k] = v` / `setdefault`), Python `int` becomes `Int`, raised exceptions
become `Except` errors, and `None` becomes `Option.none`.  Python float
division is modelled by exact division on `Rat` (the only property used
of it is that it is a plain, non-ceiling division).
-/

/-! ## Python dictionaries as insertion-ordered association lists -/

/-- Lookup in an insertion-ordered association list (Python `d.get(k)`). -/
def dictLookup {K V : Type} [DecidableEq K] : List (K × V) → K → Option V
  | [], _ => none
  | p :: rest, k => if p.1 = k then some p.2 else dictLookup rest k

/-- Assignment in an insertion-ordered association list: replaces the value
in place when the key is present, otherwise appends at the end.  This is
exactly the observable behaviour of CPython `d[k] = v` / `d.setdefault(k, v)`
on dictionaries. -/
def dictInsert {K V : Type} [DecidableEq K] : List (K × V) → K → V → List (K × V)
  | [], k, v => [(k, v)]
  | p :: rest, k, v => if p.1 = k then (k, v) :: rest else p :: dictInsert rest k v

/-- Python slice-bound adjustment for `l[a:b]`: negative indices count from
the end, positive indices are clamped to the length. -/
def pyBound (len : Nat) (i : Int) : Nat :=
  if i < 0 then ((len : Int) + i).toNat else min i.toNat len

/-- Python list slicing `l[a:b]` (step 1). -/
def pySlice {α : Type} (l : List α) (a b : Int) : List α :=
  let s := pyBound l.length a
  let e := pyBound l.length b
  (l.drop s).take (e - s)

/-! ## Data model of the plugin flavor registry
(`src/zenml/plugins/plugin_flavor_registry.py`) -/

/-- Enumeration `zenml.enums.PluginType` (closed enumeration, not under `src/`; the
spec describes it as a closed two-level taxonomy such as event-source
vs. action). -/
inductive PluginType
  | event_source
  | action
  deriving DecidableEq, Repr

/-- Enumeration `zenml.enums.PluginSubType` (closed enumeration, not under `src/`). -/
inductive PluginSubType
  | webhook
  | scheduler
  | pipeline_run
  deriving DecidableEq, Repr

def pluginTypeStr : PluginType → String
  | .event_source => "PluginType.EVENT_SOURCE"
  | .action => "PluginType.ACTION"

def pluginSubTypeStr : PluginSubType → String
  | .webhook => "PluginSubType.WEBHOOK"
  | .scheduler => "PluginSubType.SCHEDULER"
  | .pipeline_run => "PluginSubType.PIPELINE_RUN"

/-- A plugin instance (`BasePlugin`); its internals are irrelevant to the
registry, only its identity matters. -/
structure BasePlugin where
  impl : Nat
  deriving DecidableEq, Repr

/-- A flavor class (`BasePluginFlavor` subclass): carries the class-level
attributes `TYPE`, `SUBTYPE`, `FLAVOR` and `PLUGIN_CLASS` used by the
registry; `PLUGIN_CLASS` is modelled by the plugin value its zero-argument
construction produces. -/
structure FlavorClass where
  TYPE : PluginType
  SUBTYPE : PluginSubType
  FLAVOR : String
  PLUGIN_CLASS : BasePlugin
  deriving DecidableEq, Repr

/-- Entry class `RegistryEntry`: one flavor class plus an optional instantiated plugin
singleton. -/
structure RegistryEntry where
  flavor_class : FlavorClass
  plugin_instance : Option BasePlugin := none
  deriving DecidableEq, Repr

abbrev FlavorDict := List (String × RegistryEntry)
abbrev SubTypeDict := List (PluginSubType × FlavorDict)

/-- The `plugin_flavors` field of `PluginFlavorRegistry`: a three-level
keyed table `type → subtype → flavor name → entry`. -/
abbrev Registry := List (PluginType × SubTypeDict)

/-- Method `PluginFlavorRegistry._get_registry_entry`: three-level lookup,
`KeyError` becomes `none`. -/
def _get_registry_entry (reg : Registry) (t : PluginType) (s : PluginSubType)
    (flavor_name : String) : Option RegistryEntry :=
  (dictLookup reg t).bind fun td => (dictLookup td s).bind fun sd =>
    dictLookup sd flavor_name

/-- Method `PluginFlavorRegistry._flavor_entries`: the flavor dict for a
type/subtype pair, or the empty dict when either level is missing. -/
def _flavor_entries (reg : Registry) (t : PluginType) (s : PluginSubType) :
    FlavorDict :=
  match dictLookup reg t with
  | some td =>
    match dictLookup td s with
    | some sd => sd
    | none => []
  | none => []

/-- Method `PluginFlavorRegistry.register_plugin_flavor`: look the key up first;
if present, skip (a logged no-op); otherwise insert via the
`setdefault` chain. -/
def register_plugin_flavor (reg : Registry) (flavor_class : FlavorClass) :
    Registry :=
  match _get_registry_entry reg flavor_class.TYPE flavor_class.SUBTYPE
      flavor_class.FLAVOR with
  | some _ => reg
  | none =>
    let tdict := (dictLookup reg flavor_class.TYPE).getD []
    let sdict := (dictLookup tdict flavor_class.SUBTYPE).getD []
    let sdict2 :=
      match dictLookup sdict flavor_class.FLAVOR with
      | some _ => sdict
      | none =>
        sdict ++ [(flavor_class.FLAVOR,
          { flavor_class := flavor_class, plugin_instance := none })]
    dictInsert reg flavor_class.TYPE
      (dictInsert tdict flavor_class.SUBTYPE sdict2)

/-- Number of entries stored under a full `(type, subtype, name)` key. -/
def countEntriesForKey (reg : Registry) (t : PluginType) (s : PluginSubType)
    (n : String) : Nat :=
  ((_flavor_entries reg t s).filter fun p => p.1 = n).length

/-! ## Generic dictionary lemmas -/

theorem dictLookup_dictInsert_self {K V : Type} [DecidableEq K]
    (d : List (K × V)) (k : K) (v : V) :
    dictLookup (dictInsert d k v) k = some v := by
  induction d with
  | nil => simp [dictInsert, dictLookup]
  | cons p rest ih =>
    by_cases h : p.1 = k
    · simp [dictInsert, dictLookup, h]
    · simp [dictInsert, dictLookup, h, ih]

theorem dictLookup_append_single {K V : Type} [DecidableEq K]
    (d : List (K × V)) (k : K) (v : V) (h : dictLookup d k = none) :
    dictLookup (d ++ [(k, v)]) k = some v := by
  induction d with
  | nil => simp [dictLookup]
  | cons p rest ih =>
    by_cases hp : p.1 = k
    · simp [dictLookup, hp] at h
    · simp [dictLookup, hp] at h ⊢
      exact ih h

theorem filter_eq_nil_of_dictLookup_none {K V : Type} [DecidableEq K]
    (d : List (K × V)) (k : K) (h : dictLookup d k = none) :
    (d.filter fun p => p.1 = k) = [] := by
  induction d with
  | nil => rfl
  | cons p rest ih =>
    by_cases hp : p.1 = k
    · simp [dictLookup, hp] at h
    · simp [dictLookup, hp] at h
      simpa [List.filter, hp] using ih h

/-! ## Characterization lemmas for the registry operations -/

theorem _flavor_entries_eq (reg : Registry) (t : PluginType) (s : PluginSubType) :
    _flavor_entries reg t s =
      (dictLookup ((dictLookup reg t).getD []) s).getD [] := by
  unfold _flavor_entries
  cases h1 : dictLookup reg t with
  | none => simp [dictLookup]
  | some td =>
    cases h2 : dictLookup td s with
    | none => simp [h2]
    | some sd => simp [h2]

theorem _get_registry_entry_eq (reg : Registry) (t : PluginType)
    (s : PluginSubType) (n : String) :
    _get_registry_entry reg t s n = dictLookup (_flavor_entries reg t s) n := by
  unfold _get_registry_entry _flavor_entries
  cases h1 : dictLookup reg t with
  | none => simp [dictLookup]
  | some td =>
    cases h2 : dictLookup td s with
    | none => simp [h2, dictLookup]
    | some sd => simp [h2]

/-- Registering a key that is already present returns the registry
unchanged. -/
theorem register_skip (reg : Registry) (fc : FlavorClass) (e : RegistryEntry)
    (h : _get_registry_entry reg fc.TYPE fc.SUBTYPE fc.FLAVOR = some e) :
    register_plugin_flavor reg fc = reg := by
  unfold register_plugin_flavor
  rw [h]

/-- Registering an absent key rewrites the registry by the `setdefault`
chain, appending the new entry at the end of the flavor dict. -/
theorem register_absent (reg : Registry) (fc : FlavorClass)
    (h : _get_registry_entry reg fc.TYPE fc.SUBTYPE fc.FLAVOR = none) :
    register_plugin_flavor reg fc =
      dictInsert reg fc.TYPE
        (dictInsert ((dictLookup reg fc.TYPE).getD []) fc.SUBTYPE
          (_flavor_entries reg fc.TYPE fc.SUBTYPE ++
            [(fc.FLAVOR, { flavor_class := fc, plugin_instance := none })])) := by
  have hn : dictLookup (_flavor_entries reg fc.TYPE fc.SUBTYPE) fc.FLAVOR = none := by
    rw [← _get_registry_entry_eq]; exact h
  unfold register_plugin_flavor
  rw [h]
  rw [_flavor_entries_eq] at hn ⊢
  simp only [hn]

/-- The flavor entries at `(t, s)` after a double `dictInsert` at `(t, s)`. -/
theorem _flavor_entries_dictInsert (reg : Registry) (t : PluginType)
    (s : PluginSubType) (td : SubTypeDict) (sd : FlavorDict) :
    _flavor_entries (dictInsert reg t (dictInsert td s sd)) t s = sd := by
  rw [_flavor_entries_eq]
  rw [dictLookup_dictInsert_self]
  simp only [Option.getD_some]
  rw [dictLookup_dictInsert_self]
  rfl

/-- The flavor entries at `(fc.TYPE, fc.SUBTYPE)` after registering an
absent key grow by exactly the new entry, at the end. -/
theorem _flavor_entries_register_absent (reg : Registry) (fc : FlavorClass)
    (h : _get_registry_entry reg fc.TYPE fc.SUBTYPE fc.FLAVOR = none) :
    _flavor_entries (register_plugin_flavor reg fc) fc.TYPE fc.SUBTYPE =
      _flavor_entries reg fc.TYPE fc.SUBTYPE ++
        [(fc.FLAVOR, { flavor_class := fc, plugin_instance := none })] := by
  rw [register_absent reg fc h, _flavor_entries_dictInsert]

/-! ## Claim C1: idempotent registration, first registrant wins -/

/-- Claim C1: for every flavor key `(type, subtype, name)` not yet present,
registering two flavor classes with that same key leaves the registry with
exactly one entry under the key; the stored handler class is the one from
the first registration call; the second call is a no-op (it returns the
registry unchanged, raising no error) and does not replace the earlier
entry. -/
theorem register_twice_first_wins (reg : Registry) (fc1 fc2 : FlavorClass)
    (ht : fc2.TYPE = fc1.TYPE) (hs : fc2.SUBTYPE = fc1.SUBTYPE)
    (hn : fc2.FLAVOR = fc1.FLAVOR)
    (habsent : _get_registry_entry reg fc1.TYPE fc1.SUBTYPE fc1.FLAVOR = none) :
    register_plugin_flavor (register_plugin_flavor reg fc1) fc2 =
      register_plugin_flavor reg fc1 ∧
    _get_registry_entry (register_plugin_flavor (register_plugin_flavor reg fc1) fc2)
        fc1.TYPE fc1.SUBTYPE fc1.FLAVOR =
      some { flavor_class := fc1, plugin_instance := none } ∧
    countEntriesForKey (register_plugin_flavor (register_plugin_flavor reg fc1) fc2)
        fc1.TYPE fc1.SUBTYPE fc1.FLAVOR = 1 := by
  have hold : dictLookup (_flavor_entries reg fc1.TYPE fc1.SUBTYPE) fc1.FLAVOR
      = none := by
    rw [← _get_registry_entry_eq]; exact habsent
  have hentries := _flavor_entries_register_absent reg fc1 habsent
  have hlook : _get_registry_entry (register_plugin_flavor reg fc1)
      fc1.TYPE fc1.SUBTYPE fc1.FLAVOR =
      some { flavor_class := fc1, plugin_instance := none } := by
    rw [_get_registry_entry_eq, hentries]
    exact dictLookup_append_single _ _ _ hold
  have hskip : register_plugin_flavor (register_plugin_flavor reg fc1) fc2 =
      register_plugin_flavor reg fc1 := by
    apply register_skip
    rw [ht, hs, hn]
    exact hlook
  refine ⟨hskip, ?_, ?_⟩
  · rw [hskip, hlook]
  · rw [hskip]
    unfold countEntriesForKey
    rw [hentries, List.filter_append,
      filter_eq_nil_of_dictLookup_none _ _ hold]
    simp

/-- Witness for C1 at a concrete registry and flavor classes. -/
theorem register_twice_first_wins_witness :
    let fc1 : FlavorClass :=
      { TYPE := .event_source, SUBTYPE := .scheduler, FLAVOR := "calendar",
        PLUGIN_CLASS := { impl := 1 } }
    let fc2 : FlavorClass :=
      { TYPE := .event_source, SUBTYPE := .scheduler, FLAVOR := "calendar",
        PLUGIN_CLASS := { impl := 2 } }
    register_plugin_flavor (register_plugin_flavor [] fc1) fc2 =
      register_plugin_flavor [] fc1 ∧
    _get_registry_entry (register_plugin_flavor (register_plugin_flavor [] fc1) fc2)
        fc1.TYPE fc1.SUBTYPE fc1.FLAVOR =
      some { flavor_class := fc1, plugin_instance := none } ∧
    countEntriesForKey (register_plugin_flavor (register_plugin_flavor [] fc1) fc2)
        fc1.TYPE fc1.SUBTYPE fc1.FLAVOR = 1 :=
  register_twice_first_wins [] _ _ rfl rfl rfl rfl

/-! ## Pagination operations of the registry -/

/-- Error taxonomy for the two paginated listing operations: a
`RuntimeError` complaining about the pagination values (the spec's
InvalidArgument condition), or a Python `ZeroDivisionError`. -/
inductive PagedError
  | invalidArgument (msg : String)
  | zeroDivision
  deriving DecidableEq, Repr

/-- The exact `RuntimeError` message raised for bad pagination values. -/
def invalidPaginationMsg (page size : Int) : String :=
  "Invalid pagination values. Both values for page: " ++ toString page ++
    " and size: " ++ toString size ++ " need to be positive, non-zero integers."

/-- Method `PluginFlavorRegistry.list_available_flavor_names_for_type_and_subtype`:
collects the flavor names for the pair and, when `page > 0` and `size > 0`,
returns the Python slice `flavor_names[page*size : page*size + size]`;
otherwise raises. -/
def list_available_flavor_names_for_type_and_subtype (reg : Registry)
    (t : PluginType) (subtype : PluginSubType) (page size : Int) :
    Except PagedError (List String) :=
  let flavor_names := (_flavor_entries reg t subtype).map Prod.fst
  if page > 0 ∧ size > 0 then
    .ok (pySlice flavor_names (page * size) (page * size + size))
  else
    .error (.invalidArgument (invalidPaginationMsg page size))

/-- Method `PluginFlavorRegistry.list_available_flavors_for_type_and_subtype`:
all handler classes for the pair, empty when the pair is unregistered. -/
def list_available_flavors_for_type_and_subtype (reg : Registry)
    (t : PluginType) (subtype : PluginSubType) : List FlavorClass :=
  (_flavor_entries reg t subtype).map fun p => p.2.flavor_class

/-- The response object a flavor class converts itself to
(`BasePluginFlavor.get_flavor_response_model`, declared outside `src/`;
modelled as an injective pairing of the class with the hydration flag). -/
structure FlavorResponse where
  flavor_class : FlavorClass
  hydrated : Bool
  deriving DecidableEq, Repr

def get_flavor_response_model (fc : FlavorClass) (hydrate : Bool) :
    FlavorResponse :=
  { flavor_class := fc, hydrated := hydrate }

/-- Model `zenml.models.Page` as used by the registry. `total_pages` is the result
of a plain division (Python float division, modelled on `Rat`). -/
structure FlavorPage where
  index : Int
  max_size : Int
  total_pages : Rat
  total : Nat
  items : List FlavorResponse
  deriving DecidableEq, Repr

/-- Method `PluginFlavorRegistry.list_available_flavor_responses_for_type_and_subtype`:
computes `total / size` (raising `ZeroDivisionError` when `size = 0`, with no
prior validation of `page` or `size`), then slices the response models at
`[(page-1)*size : (page-1)*size + size]`. -/
def list_available_flavor_responses_for_type_and_subtype (reg : Registry)
    (t : PluginType) (subtype : PluginSubType) (page size : Int)
    (hydrate : Bool) : Except PagedError FlavorPage :=
  let flavors := list_available_flavors_for_type_and_subtype reg t subtype
  let total := flavors.length
  if size = 0 then
    .error .zeroDivision
  else
    let total_pages : Rat := (total : Rat) / (size : Rat)
    let start := (page - 1) * size
    let stop := start + size
    let page_items :=
      pySlice (flavors.map fun flavor => get_flavor_response_model flavor hydrate)
        start stop
    .ok { index := page, max_size := size, total_pages := total_pages,
          total := total, items := page_items }

/-! ## Slicing lemmas -/

theorem pySlice_nonneg {α : Type} (l : List α) (a b : Int)
    (ha : 0 ≤ a) (hb : 0 ≤ b) :
    pySlice l a b = (l.drop a.toNat).take (b.toNat - a.toNat) := by
  unfold pySlice pyBound
  have ha2 : ¬ a < 0 := by omega
  have hb2 : ¬ b < 0 := by omega
  simp only [ha2, hb2, if_false]
  by_cases hA : a.toNat ≤ l.length
  · have hminA : min a.toNat l.length = a.toNat := Nat.min_eq_left hA
    rw [hminA]
    rw [List.take_eq_take]
    simp only [List.length_drop]
    omega
  · have hminA : min a.toNat l.length = l.length := by omega
    rw [hminA]
    rw [List.drop_length]
    rw [List.drop_eq_nil_of_le (by omega)]
    simp

/-- The result of a valid page request for flavor names: the Python slice
`names[page*size : page*size + size]`, i.e. drop `page*size`, take `size`. -/
theorem names_page_eq (reg : Registry) (t : PluginType) (st : PluginSubType)
    (p size : Nat) (hp : 0 < p) (hs : 0 < size) :
    list_available_flavor_names_for_type_and_subtype reg t st (p : Int) (size : Int) =
      .ok ((((_flavor_entries reg t st).map Prod.fst).drop (p * size)).take size) := by
  unfold list_available_flavor_names_for_type_and_subtype
  have hcond : ((p : Int) > 0 ∧ (size : Int) > 0) :=
    ⟨by exact_mod_cast hp, by exact_mod_cast hs⟩
  rw [if_pos hcond]
  have ha : (0:Int) ≤ (p : Int) * (size : Int) := by positivity
  have hb : (0:Int) ≤ (p : Int) * (size : Int) + (size : Int) := by positivity
  rw [pySlice_nonneg _ _ _ ha hb]
  have h1 : ((p : Int) * (size : Int)).toNat = p * size := by
    rw [← Int.natCast_mul, Int.toNat_natCast]
  have h2 : ((p : Int) * (size : Int) + (size : Int)).toNat = p * size + size := by
    rw [← Int.natCast_mul, ← Int.natCast_add, Int.toNat_natCast]
  rw [h1, h2]
  have h3 : p * size + size - p * size = size := by omega
  rw [h3]

/-- Concatenating the page slices `l[(i+1)*s : (i+2)*s]` for `i < P`
reassembles `(l.drop s).take (P*s)`. -/
theorem join_page_slices {α : Type} (l : List α) (s : Nat) :
    ∀ P : Nat,
      ((List.range P).map fun i => ((l.drop ((i + 1) * s)).take s)).flatten =
        (l.drop s).take (P * s) := by
  intro P
  induction P with
  | zero => simp
  | succ P ih =>
    rw [List.range_succ, List.map_append, List.flatten_append, ih]
    simp only [List.map_cons, List.map_nil, List.flatten_cons, List.flatten_nil,
      List.append_nil]
    have harith : (P + 1) * s = P * s + s := by ring
    rw [harith, List.take_add]
    have hdrop : (l.drop s).drop (P * s) = l.drop ((P + 1) * s) := by
      rw [List.drop_drop]
      congr 1
      ring
    rw [hdrop, harith]

/-! ## Claim C2 (corrected): name pagination skips the first page of names -/

/-- The first flavor class of the C2 counterexample registry. -/
def cexFlavorA : FlavorClass :=
  { TYPE := .event_source, SUBTYPE := .scheduler, FLAVOR := "a",
    PLUGIN_CLASS := { impl := 1 } }

/-- The second flavor class of the C2 witness registry. -/
def cexFlavorB : FlavorClass :=
  { TYPE := .event_source, SUBTYPE := .scheduler, FLAVOR := "b",
    PLUGIN_CLASS := { impl := 2 } }

/-- Counterexample to claim C2: a registry holding exactly one flavor name
(`N = 1`) paged with `size = 1` must, per the claim, yield
`ceil(1/1) = 1` non-empty page whose concatenation is the full name list
`["a"]`; but page 1 — the first page the operation accepts — and every
later page return the empty list, because the slice starts at zero-based
offset `page * size ≥ 1`. -/
theorem names_pagination_cex :
    ((_flavor_entries (register_plugin_flavor [] cexFlavorA)
        .event_source .scheduler).map Prod.fst = ["a"]) ∧
    list_available_flavor_names_for_type_and_subtype
      (register_plugin_flavor [] cexFlavorA) .event_source .scheduler 1 1 =
      .ok [] ∧
    list_available_flavor_names_for_type_and_subtype
      (register_plugin_flavor [] cexFlavorA) .event_source .scheduler 2 1 =
      .ok [] := by
  refine ⟨?_, ?_, ?_⟩ <;>
    simp [register_plugin_flavor, _get_registry_entry, _flavor_entries,
      dictLookup, dictInsert, cexFlavorA,
      list_available_flavor_names_for_type_and_subtype, pySlice, pyBound]

/-- Amended claim C2: the name listing is 1-indexed in `page` but slices at
zero-based offset `page * size`, so page `p` returns
`names[p*size : p*size + size]`.  Hence the concatenation of pages
`1, ..., P`, in page order, equals the registered name list with its first
`size` names dropped — still in insertion order, with no duplicates — once
`P + 1` pages would cover the list; the first `size` registered names are
returned by no page; and page `p` is non-empty exactly when
`p * size < N`, so there are `ceil(N/size) - 1` non-empty pages, not
`ceil(N/size)`. -/
theorem names_pagination_amended (reg : Registry) (t : PluginType)
    (st : PluginSubType) (size P p : Nat) (hs : 0 < size) (hp : 0 < p)
    (hP : ((_flavor_entries reg t st).map Prod.fst).length ≤ (P + 1) * size) :
    (((List.range P).map fun i =>
        ((list_available_flavor_names_for_type_and_subtype reg t st
          ((i + 1 : Nat) : Int) (size : Int)).toOption.getD [])).flatten =
      ((_flavor_entries reg t st).map Prod.fst).drop size) ∧
    ((list_available_flavor_names_for_type_and_subtype reg t st
        (p : Int) (size : Int) ≠ .ok []) ↔
      p * size < ((_flavor_entries reg t st).map Prod.fst).length) := by
  constructor
  · have hmap : ((List.range P).map fun i =>
        ((list_available_flavor_names_for_type_and_subtype reg t st
          ((i + 1 : Nat) : Int) (size : Int)).toOption.getD [])) =
        ((List.range P).map fun i =>
          ((((_flavor_entries reg t st).map Prod.fst).drop ((i + 1) * size)).take
            size)) := by
      apply List.map_congr_left
      intro i _
      rw [names_page_eq reg t st (i + 1) size (by omega) hs]
      rfl
    rw [hmap, join_page_slices]
    apply List.take_of_length_le
    have hexp : (P + 1) * size = P * size + size := by ring
    rw [hexp] at hP
    rw [List.length_drop]
    omega
  · rw [names_page_eq reg t st p size hp hs]
    constructor
    · intro hne
      by_contra hge
      apply hne
      have hdropnil :
          ((_flavor_entries reg t st).map Prod.fst).drop (p * size) = [] := by
        rw [List.drop_eq_nil_iff]
        omega
      rw [hdropnil]
      simp
    · intro hlt heq
      have htake :
          ((((_flavor_entries reg t st).map Prod.fst).drop (p * size)).take size)
            = [] := by
        injection heq
      rcases List.take_eq_nil_iff.mp htake with h | h
      · omega
      · rw [List.drop_eq_nil_iff] at h
        omega

/-- Witness for the amended C2 on a concrete two-name registry, size 1,
`P = 2` pages, probing page `p = 1`. -/
theorem names_pagination_amended_witness :
    (0 : Nat) < 1 ∧
    ((((List.range 2).map fun i =>
        ((list_available_flavor_names_for_type_and_subtype
          (register_plugin_flavor (register_plugin_flavor [] cexFlavorA) cexFlavorB)
          .event_source .scheduler ((i + 1 : Nat) : Int) ((1 : Nat) : Int)).toOption.getD
            [])).flatten =
      ((_flavor_entries
          (register_plugin_flavor (register_plugin_flavor [] cexFlavorA) cexFlavorB)
          .event_source .scheduler).map Prod.fst).drop 1) ∧
    ((list_available_flavor_names_for_type_and_subtype
        (register_plugin_flavor (register_plugin_flavor [] cexFlavorA) cexFlavorB)
        .event_source .scheduler ((1 : Nat) : Int) ((1 : Nat) : Int) ≠ .ok []) ↔
      1 * 1 < ((_flavor_entries
          (register_plugin_flavor (register_plugin_flavor [] cexFlavorA) cexFlavorB)
          .event_source .scheduler).map Prod.fst).length)) :=
  ⟨by decide,
    names_pagination_amended
      (register_plugin_flavor (register_plugin_flavor [] cexFlavorA) cexFlavorB)
      .event_source .scheduler 1 2 1 (by decide) (by decide) (by decide)⟩

/-! ## Claim C5: invalid pagination arguments fail, empty subtype pages are empty -/

/-- Claim C5: for every type, subtype and registry state,
`list_available_flavor_names_for_type_and_subtype` fails with the
InvalidArgument condition whenever `page ≤ 0` or `size ≤ 0` (never
coercing to a default page or silently returning an empty result, no
matter what is registered); and with `page = 1, size = 1` on an
unregistered or empty subtype it returns the empty list without error. -/
theorem names_pagination_invalid_and_empty (reg : Registry) (t : PluginType)
    (st : PluginSubType) (page size : Int)
    (hbad : page ≤ 0 ∨ size ≤ 0) :
    list_available_flavor_names_for_type_and_subtype reg t st page size =
      .error (.invalidArgument (invalidPaginationMsg page size)) ∧
    (_flavor_entries reg t st = [] →
      list_available_flavor_names_for_type_and_subtype reg t st 1 1 = .ok []) := by
  constructor
  · unfold list_available_flavor_names_for_type_and_subtype
    have hcond : ¬ (page > 0 ∧ size > 0) := by omega
    rw [if_neg hcond]
  · intro hempty
    unfold list_available_flavor_names_for_type_and_subtype
    rw [hempty]
    simp [pySlice, pyBound]

/-- Witness for C5 with `page = 0`, `size = 0`: the InvalidArgument failure
on a registry whose `(event_source, scheduler)` subtype is non-empty, and
the empty page-1 result on the empty registry whose queried subtype is
unregistered. -/
theorem names_pagination_invalid_and_empty_witness :
    ((0 : Int) ≤ 0 ∨ (0 : Int) ≤ 0) ∧
    list_available_flavor_names_for_type_and_subtype
        (register_plugin_flavor [] cexFlavorA) .event_source .scheduler 0 0 =
      .error (.invalidArgument (invalidPaginationMsg 0 0)) ∧
    _flavor_entries [] .event_source .webhook = [] ∧
    list_available_flavor_names_for_type_and_subtype []
        .event_source .webhook 1 1 = .ok [] :=
  ⟨Or.inl le_rfl,
    (names_pagination_invalid_and_empty (register_plugin_flavor [] cexFlavorA)
      .event_source .scheduler 0 0 (Or.inl le_rfl)).1,
    rfl,
    (names_pagination_invalid_and_empty [] .event_source .webhook 0 0
      (Or.inl le_rfl)).2 rfl⟩

/-! ## Claim C9: the response listing divides by `size` without validation -/

/-- Claim C9: for every registry state, page value and hydration flag,
calling `list_available_flavor_responses_for_type_and_subtype` with
`size = 0` fails with a division-by-zero error — not with the
InvalidArgument condition of the name listing: the operation performs no
validation of its pagination parameters before dividing the total count by
`size`. -/
theorem responses_size_zero_division (reg : Registry) (t : PluginType)
    (st : PluginSubType) (page : Int) (hydrate : Bool) :
    list_available_flavor_responses_for_type_and_subtype reg t st page 0 hydrate =
      .error .zeroDivision := by
  unfold list_available_flavor_responses_for_type_and_subtype
  simp

/-! ## Claim C6: contents of a flavor-response page -/

/-- Claim C6: for every (type, subtype) pair, `page ≥ 1`, `size ≥ 1` and
hydration flag, the response listing returns a Page whose items are the
response models of the flavors at zero-based offsets `(page-1)*size`
through `(page-1)*size + size - 1` in insertion order, whose `total` field
equals the number `N` of registered flavors, and whose `total_pages` field
equals the plain (non-ceiling) division `N / size`. -/
theorem responses_page_contents (reg : Registry) (t : PluginType)
    (st : PluginSubType) (page size : Int) (hydrate : Bool)
    (hp : 1 ≤ page) (hs : 1 ≤ size) :
    list_available_flavor_responses_for_type_and_subtype reg t st page size
        hydrate =
      .ok { index := page, max_size := size,
            total_pages :=
              ((list_available_flavors_for_type_and_subtype reg t st).length : Rat) /
                (size : Rat),
            total := (list_available_flavors_for_type_and_subtype reg t st).length,
            items :=
              ((((list_available_flavors_for_type_and_subtype reg t st).map
                  fun f => get_flavor_response_model f hydrate).drop
                ((page - 1) * size).toNat).take size.toNat) } := by
  have hsz : ¬ (size = 0) := by omega
  simp only [list_available_flavor_responses_for_type_and_subtype]
  rw [if_neg hsz]
  have ha : (0:Int) ≤ (page - 1) * size := mul_nonneg (by omega) (by omega)
  have hb : (0:Int) ≤ (page - 1) * size + size := by omega
  rw [pySlice_nonneg _ _ _ ha hb]
  have htk : ((page - 1) * size + size).toNat - ((page - 1) * size).toNat =
      size.toNat := by omega
  rw [htk]

/-- A concrete flavor class for witnesses. -/
def sampleFlavor : FlavorClass :=
  { TYPE := .action, SUBTYPE := .pipeline_run, FLAVOR := "builtin",
    PLUGIN_CLASS := { impl := 3 } }

/-- Witness for C6: one registered flavor, `page = 1`, `size = 2`,
hydrated. -/
theorem responses_page_contents_witness :
    (1 : Int) ≤ 1 ∧ (1 : Int) ≤ 2 ∧
    list_available_flavor_responses_for_type_and_subtype
        (register_plugin_flavor [] sampleFlavor) .action .pipeline_run 1 2 true =
      .ok { index := 1, max_size := 2,
            total_pages :=
              ((list_available_flavors_for_type_and_subtype
                  (register_plugin_flavor [] sampleFlavor) .action .pipeline_run).length : Rat) /
                ((2 : Int) : Rat),
            total := (list_available_flavors_for_type_and_subtype
                (register_plugin_flavor [] sampleFlavor) .action .pipeline_run).length,
            items :=
              ((((list_available_flavors_for_type_and_subtype
                    (register_plugin_flavor [] sampleFlavor) .action .pipeline_run).map
                  fun f => get_flavor_response_model f true).drop
                (((1 : Int) - 1) * 2).toNat).take (2 : Int).toNat) } :=
  ⟨le_rfl, by omega,
    responses_page_contents (register_plugin_flavor [] sampleFlavor)
      .action .pipeline_run 1 2 true le_rfl (by omega)⟩

/-! ## Lookup and initialization operations -/

/-- Error taxonomy for registry lookups: `KeyError` (the spec's NotFound
condition) or the `RuntimeError` raised for an uninstantiated plugin (the
spec's Uninitialized condition). -/
inductive PluginLookupError
  | notFound (msg : String)
  | uninitialized (msg : String)
  deriving DecidableEq, Repr

/-- The `KeyError` message of `get_flavor_class`. -/
def flavorClassNotFoundMsg (t : PluginType) (st : PluginSubType)
    (name : String) : String :=
  "No flavor class found for flavor name " ++ name ++ " at type " ++
    pluginTypeStr t ++ " and subtype " ++ pluginSubTypeStr st ++ "."

/-- The `KeyError` message of `get_plugin`. -/
def pluginNotFoundMsg (t : PluginType) (st : PluginSubType)
    (name : String) : String :=
  "No flavor found for flavor name " ++ name ++ " and type " ++
    pluginTypeStr t ++ " and subtype " ++ pluginSubTypeStr st ++ "."

/-- The `RuntimeError` message of `get_plugin` for an uninstantiated
entry. -/
def pluginUninitializedMsg (fc : FlavorClass) : String :=
  "Plugin " ++ fc.FLAVOR ++ " was not initialized."

/-- Method `PluginFlavorRegistry.get_flavor_class`. -/
def get_flavor_class (reg : Registry) (t : PluginType) (st : PluginSubType)
    (name : String) : Except PluginLookupError FlavorClass :=
  match _get_registry_entry reg t st name with
  | some entry => .ok entry.flavor_class
  | none => .error (.notFound (flavorClassNotFoundMsg t st name))

/-- Method `PluginFlavorRegistry.get_plugin`: the `RuntimeError` for a missing
instance is raised inside the `try` block but is not a `KeyError`, so it
propagates unchanged. -/
def get_plugin (reg : Registry) (t : PluginType) (st : PluginSubType)
    (name : String) : Except PluginLookupError BasePlugin :=
  match _get_registry_entry reg t st name with
  | none => .error (.notFound (pluginNotFoundMsg t st name))
  | some entry =>
    match entry.plugin_instance with
    | none => .error (.uninitialized (pluginUninitializedMsg entry.flavor_class))
    | some inst => .ok inst

/-- The loop body of `initialize_plugins`:
`registry_entry.plugin_instance = registry_entry.flavor_class.PLUGIN_CLASS()`. -/
def initEntry (e : RegistryEntry) : RegistryEntry :=
  { e with plugin_instance := some e.flavor_class.PLUGIN_CLASS }

/-- Method `PluginFlavorRegistry.initialize_plugins`: for every entry, instantiate
`flavor_class.PLUGIN_CLASS()` and store it. -/
def initialize_plugins (reg : Registry) : Registry :=
  reg.map fun tp => (tp.1, tp.2.map fun sp => (sp.1, sp.2.map fun np =>
    (np.1, initEntry np.2)))

/-- The registry built by an explicit registration phase from a list of
flavor descriptors (as `register_plugin_flavors` does for built-ins
followed by integration flavors). -/
def registryOf (fcs : List FlavorClass) : Registry :=
  fcs.foldl register_plugin_flavor []

/-! ## Claim C3: unregistered keys always fail with NotFound -/

/-- Claim C3: for every type, subtype and name, `get_flavor_class` and
`get_plugin` fail with the NotFound condition whenever the key is not
registered — including partially registered prefixes, which also make
`_get_registry_entry` return nothing — and never return a default value. -/
theorem unregistered_lookup_not_found (reg : Registry) (t : PluginType)
    (st : PluginSubType) (name : String)
    (habsent : _get_registry_entry reg t st name = none) :
    get_flavor_class reg t st name =
      .error (.notFound (flavorClassNotFoundMsg t st name)) ∧
    get_plugin reg t st name =
      .error (.notFound (pluginNotFoundMsg t st name)) := by
  unfold get_flavor_class get_plugin
  rw [habsent]
  exact ⟨rfl, rfl⟩

/-- Witness for C3 on a partially registered prefix: the type `action` is
registered (with subtype `pipeline_run`) but the queried subtype `webhook`
is not. -/
theorem unregistered_lookup_not_found_witness :
    _get_registry_entry (register_plugin_flavor [] sampleFlavor)
        .action .webhook "builtin" = none ∧
    (get_flavor_class (register_plugin_flavor [] sampleFlavor)
        .action .webhook "builtin" =
      .error (.notFound (flavorClassNotFoundMsg .action .webhook "builtin")) ∧
    get_plugin (register_plugin_flavor [] sampleFlavor)
        .action .webhook "builtin" =
      .error (.notFound (pluginNotFoundMsg .action .webhook "builtin"))) :=
  ⟨by decide,
    unregistered_lookup_not_found (register_plugin_flavor [] sampleFlavor)
      .action .webhook "builtin" (by decide)⟩

/-! ## Claim C4: Uninitialized before `initialize_plugins`, singletons after -/

theorem dictLookup_dictInsert {K V : Type} [DecidableEq K]
    (d : List (K × V)) (k k2 : K) (v : V) :
    dictLookup (dictInsert d k v) k2 =
      if k = k2 then some v else dictLookup d k2 := by
  induction d with
  | nil => simp [dictInsert, dictLookup]
  | cons p rest ih =>
    by_cases hp : p.1 = k
    · by_cases hk : k = k2
      · simp [dictInsert, dictLookup, hp, hk]
      · simp [dictInsert, dictLookup, hp, hk]
    · by_cases hk : k = k2
      · subst hk
        simp [dictInsert, dictLookup, hp, ih]
      · simp only [dictInsert, hp, if_false, dictLookup]
        by_cases hp2 : p.1 = k2
        · simp [hp2, hk]
        · simp [hp2, ih, hk]

theorem dictLookup_append {K V : Type} [DecidableEq K]
    (d1 d2 : List (K × V)) (k : K) :
    dictLookup (d1 ++ d2) k =
      match dictLookup d1 k with
      | some v => some v
      | none => dictLookup d2 k := by
  induction d1 with
  | nil => simp [dictLookup]
  | cons p rest ih =>
    by_cases hp : p.1 = k
    · simp [dictLookup, hp]
    · simp [dictLookup, hp, ih]

theorem dictLookup_mapVal {K V W : Type} [DecidableEq K] (f : V → W)
    (d : List (K × V)) (k : K) :
    dictLookup (d.map fun p => (p.1, f p.2)) k = (dictLookup d k).map f := by
  induction d with
  | nil => simp [dictLookup]
  | cons p rest ih =>
    by_cases hp : p.1 = k
    · simp [dictLookup, hp]
    · simp [dictLookup, hp, ih]

/-- How `register_plugin_flavor` on an absent key changes the flavor
entries of every `(type, subtype)` pair: the target pair grows by the new
entry at the end, all other pairs are untouched. -/
theorem _flavor_entries_register (reg : Registry) (fc : FlavorClass)
    (t : PluginType) (st : PluginSubType)
    (habs : _get_registry_entry reg fc.TYPE fc.SUBTYPE fc.FLAVOR = none) :
    _flavor_entries (register_plugin_flavor reg fc) t st =
      if fc.TYPE = t ∧ fc.SUBTYPE = st then
        _flavor_entries reg t st ++
          [(fc.FLAVOR, { flavor_class := fc, plugin_instance := none })]
      else _flavor_entries reg t st := by
  rw [register_absent reg fc habs]
  rw [_flavor_entries_eq, dictLookup_dictInsert]
  by_cases h1 : fc.TYPE = t
  · rw [if_pos h1]
    simp only [Option.getD_some]
    rw [dictLookup_dictInsert]
    by_cases h2 : fc.SUBTYPE = st
    · rw [if_pos h2, if_pos ⟨h1, h2⟩]
      simp only [Option.getD_some]
      rw [← h1, ← h2, _flavor_entries_eq]
    · rw [if_neg h2, if_neg (by tauto)]
      rw [← h1, _flavor_entries_eq]
  · rw [if_neg h1, if_neg (by tauto), _flavor_entries_eq]

/-- No entry of a registry reachable by registration alone carries a
plugin instance. -/
def uninstantiated (reg : Registry) : Prop :=
  ∀ t st n e, _get_registry_entry reg t st n = some e →
    e.plugin_instance = none

theorem register_preserves_uninstantiated (reg : Registry) (fc : FlavorClass)
    (h : uninstantiated reg) :
    uninstantiated (register_plugin_flavor reg fc) := by
  intro t st n e hlook
  cases hx : _get_registry_entry reg fc.TYPE fc.SUBTYPE fc.FLAVOR with
  | some e2 =>
    rw [register_skip reg fc e2 hx] at hlook
    exact h _ _ _ _ hlook
  | none =>
    rw [_get_registry_entry_eq, _flavor_entries_register reg fc t st hx]
      at hlook
    by_cases hts : fc.TYPE = t ∧ fc.SUBTYPE = st
    · rw [if_pos hts, dictLookup_append] at hlook
      cases hold : dictLookup (_flavor_entries reg t st) n with
      | some e3 =>
        rw [hold] at hlook
        injection hlook with he
        subst he
        exact h t st n _ (by rw [_get_registry_entry_eq]; exact hold)
      | none =>
        rw [hold] at hlook
        simp only [dictLookup] at hlook
        by_cases hname : fc.FLAVOR = n
        · rw [if_pos hname] at hlook
          injection hlook with he
          subst he
          rfl
        · rw [if_neg hname] at hlook
          exact Option.noConfusion hlook
    · rw [if_neg hts] at hlook
      exact h t st n e (by rw [_get_registry_entry_eq]; exact hlook)

theorem registryOf_uninstantiated (fcs : List FlavorClass) :
    uninstantiated (registryOf fcs) := by
  have hgen : ∀ (gs : List FlavorClass) (reg : Registry), uninstantiated reg →
      uninstantiated (gs.foldl register_plugin_flavor reg) := by
    intro gs
    induction gs with
    | nil => intro reg h; exact h
    | cons fc rest ih =>
      intro reg h
      exact ih _ (register_preserves_uninstantiated reg fc h)
  apply hgen
  intro t st n e he
  simp [_get_registry_entry, dictLookup] at he

/-- Running `initialize_plugins` transforms every stored entry by instantiating
its `PLUGIN_CLASS`, and changes nothing else. -/
theorem _get_registry_entry_after_init (reg : Registry) (t : PluginType)
    (st : PluginSubType) (n : String) :
    _get_registry_entry (initialize_plugins reg) t st n =
      (_get_registry_entry reg t st n).map initEntry := by
  unfold _get_registry_entry initialize_plugins
  rw [dictLookup_mapVal]
  cases h1 : dictLookup reg t with
  | none => simp
  | some td =>
    simp only [Option.map_some', Option.some_bind]
    rw [dictLookup_mapVal]
    cases h2 : dictLookup td st with
    | none => simp
    | some sd =>
      simp only [Option.map_some', Option.some_bind]
      rw [dictLookup_mapVal]

/-- Claim C4: for every registry built by registration alone and every key
registered in it, `get_plugin` before `initialize_plugins` fails with the
Uninitialized condition (a distinct condition from NotFound), and after
`initialize_plugins` has run, `get_plugin` returns the non-null plugin
singleton instantiated from the entry's flavor class. -/
theorem get_plugin_uninitialized_then_ok (fcs : List FlavorClass)
    (t : PluginType) (st : PluginSubType) (n : String) (e : RegistryEntry)
    (hreg : _get_registry_entry (registryOf fcs) t st n = some e) :
    get_plugin (registryOf fcs) t st n =
      .error (.uninitialized (pluginUninitializedMsg e.flavor_class)) ∧
    get_plugin (initialize_plugins (registryOf fcs)) t st n =
      .ok e.flavor_class.PLUGIN_CLASS := by
  have hnone : e.plugin_instance = none :=
    registryOf_uninstantiated fcs t st n e hreg
  constructor
  · unfold get_plugin
    rw [hreg]
    cases e with
    | mk fc2 pi =>
      cases pi with
      | none => rfl
      | some x => simp at hnone
  · unfold get_plugin
    rw [_get_registry_entry_after_init, hreg]
    rfl

/-- Witness for C4: the singleton registration list `[sampleFlavor]` and
its key. -/
theorem get_plugin_uninitialized_then_ok_witness :
    _get_registry_entry (registryOf [sampleFlavor])
        .action .pipeline_run "builtin" =
      some { flavor_class := sampleFlavor, plugin_instance := none } ∧
    (get_plugin (registryOf [sampleFlavor]) .action .pipeline_run "builtin" =
      .error (.uninitialized (pluginUninitializedMsg sampleFlavor)) ∧
    get_plugin (initialize_plugins (registryOf [sampleFlavor]))
        .action .pipeline_run "builtin" =
      .ok sampleFlavor.PLUGIN_CLASS) :=
  ⟨by decide,
    get_plugin_uninitialized_then_ok [sampleFlavor]
      .action .pipeline_run "builtin"
      { flavor_class := sampleFlavor, plugin_instance := none } (by decide)⟩

/-! ## Deployment service locator
(`examples/vertex_deployer/steps/prediction_service_loader_step.py`) -/

/-- A deployed prediction service (`VertexDeploymentService`); only its
identity matters to the locator. -/
structure VertexDeploymentService where
  service_id : Nat
  deriving DecidableEq, Repr

/-- The `RuntimeError` message raised when no deployed service matches.  It
interpolates the step name, the pipeline name and the model name; the
`running` flag does not occur in the f-string. -/
def noServiceMsg (pipeline_name pipeline_step_name model_name : String) :
    String :=
  "No MLflow prediction service deployed by the " ++ pipeline_step_name ++
    " step in the " ++ pipeline_name ++ " pipeline for the '" ++ model_name ++
    "' model is currently running."

/-- Step `prediction_service_loader`: the model deployer is queried with the
four lookup parameters and replies with `existing_services` in provider
order; the step returns the first service when the list is truthy
(non-empty) and otherwise raises the `RuntimeError` above.  The `running`
flag is forwarded to the deployer query only. -/
def prediction_service_loader
    (existing_services : List VertexDeploymentService)
    (pipeline_name pipeline_step_name : String) (running : Bool)
    (model_name : String) : Except String VertexDeploymentService :=
  match existing_services with
  | svc :: _ => .ok svc
  | [] => .error (noServiceMsg pipeline_name pipeline_step_name model_name)

/-! ## Claim C7 (corrected): locator returns first match or NotFound naming
three of the four lookup parameters -/

/-- Counterexample to claim C7: the NotFound message does not identify the
fourth lookup parameter, `running` — two empty-result lookups for
`("p", "s", "m")` that differ only in the `running` flag raise literally
the same error, so the message cannot identify all four lookup
parameters. -/
theorem loader_message_ignores_running_cex :
    prediction_service_loader [] "p" "s" true "m" =
      prediction_service_loader [] "p" "s" false "m" ∧
    prediction_service_loader [] "p" "s" true "m" =
      .error (noServiceMsg "p" "s" "m") :=
  ⟨rfl, rfl⟩

/-- Amended claim C7: if the deployment provider returns one or more
matching services, the locator returns exactly the first service in
provider order and never raises; if the provider returns zero matches, the
locator fails with a NotFound condition whose message identifies the
pipeline name, the pipeline step name and the model name (the `running`
flag is not reflected in the message). -/
theorem loader_first_match_or_not_found
    (services : List VertexDeploymentService)
    (p s m : String) (running : Bool)
    (hne : services ≠ []) :
    (∀ svc rest, services = svc :: rest →
      prediction_service_loader services p s running m = .ok svc) ∧
    (prediction_service_loader [] p s running m =
      .error (noServiceMsg p s m) ∧
    (∃ a b : String, noServiceMsg p s m = a ++ p ++ b) ∧
    (∃ a b : String, noServiceMsg p s m = a ++ s ++ b) ∧
    (∃ a b : String, noServiceMsg p s m = a ++ m ++ b)) := by
  refine ⟨?_, rfl, ?_, ?_, ?_⟩
  · intro svc rest hcons
    rw [hcons]
    rfl
  · refine ⟨"No MLflow prediction service deployed by the " ++ s ++
      " step in the ",
      " pipeline for the '" ++ m ++ "' model is currently running.", ?_⟩
    unfold noServiceMsg
    simp only [String.append_assoc]
  · refine ⟨"No MLflow prediction service deployed by the ",
      " step in the " ++ p ++ " pipeline for the '" ++ m ++
        "' model is currently running.", ?_⟩
    unfold noServiceMsg
    simp only [String.append_assoc]
  · refine ⟨"No MLflow prediction service deployed by the " ++ s ++
      " step in the " ++ p ++ " pipeline for the '",
      "' model is currently running.", ?_⟩
    unfold noServiceMsg
    simp only [String.append_assoc]

/-- Witness for the amended C7 at a concrete one-service list. -/
theorem loader_first_match_or_not_found_witness :
    ([{ service_id := 7 }, { service_id := 8 }] :
        List VertexDeploymentService) ≠ [] ∧
    ((∀ svc rest, ([{ service_id := 7 }, { service_id := 8 }] :
          List VertexDeploymentService) = svc :: rest →
      prediction_service_loader [{ service_id := 7 }, { service_id := 8 }]
          "p" "s" true "m" = .ok svc) ∧
    (prediction_service_loader [] "p" "s" true "m" =
      .error (noServiceMsg "p" "s" "m") ∧
    (∃ a b : String, noServiceMsg "p" "s" "m" = a ++ "p" ++ b) ∧
    (∃ a b : String, noServiceMsg "p" "s" "m" = a ++ "s" ++ b) ∧
    (∃ a b : String, noServiceMsg "p" "s" "m" = a ++ "m" ++ b))) :=
  ⟨by decide,
    loader_first_match_or_not_found
      [{ service_id := 7 }, { service_id := 8 }] "p" "s" "m" true
      (by decide)⟩

/-! ## Trigger entity model (`src/zenml/models/v2/core/trigger.py`) -/

/-- An opaque structured configuration mapping (`Dict[str, Any]`),
interpreted only by the matching flavor. -/
abbrev ConfigDict := List (String × String)

/-- Model `EventSourceResponse` (external entity, opaque here). -/
structure EventSourceResponse where
  event_source_uuid : Nat
  deriving DecidableEq, Repr

/-- Model `TriggerResponseBody`: the cheap facet carried by every response. -/
structure TriggerResponseBody where
  event_source_flavor : String
  action_flavor : String
  action_subtype : String
  is_active : Bool
  deriving DecidableEq, Repr

/-- Model `TriggerResponseMetadata`: the lazily loaded metadata facet. -/
structure TriggerResponseMetadata where
  event_filter : ConfigDict
  action : ConfigDict
  description : String := ""
  deriving DecidableEq, Repr

/-- Model `TriggerResponseResources`: the related-entity facet. -/
structure TriggerResponseResources where
  event_source : EventSourceResponse
  deriving DecidableEq, Repr

/-- Model `TriggerResponse`: `name` plus the three facets; an unhydrated
response carries only the body facet. -/
structure TriggerResponse where
  id : Nat
  name : String
  body : TriggerResponseBody
  metadata : Option TriggerResponseMetadata := none
  resources : Option TriggerResponseResources := none
  deriving DecidableEq, Repr

/-- The NotHydrated condition. -/
inductive HydrationError
  | notHydrated
  deriving DecidableEq, Repr

/-- Modelled from the spec: `WorkspaceScopedResponse.get_body` (the base
response class is not under `src/`); the body facet is always present. -/
def get_body (tr : TriggerResponse) : TriggerResponseBody := tr.body

/-- Modelled from the spec: `WorkspaceScopedResponse.get_metadata` (the
base response class is not under `src/`); per the spec, "any property
access on metadata/resources facets before hydration must fail clearly
(NotHydrated condition) rather than silently return default/empty
values". -/
def get_metadata (tr : TriggerResponse) :
    Except HydrationError TriggerResponseMetadata :=
  match tr.metadata with
  | some md => .ok md
  | none => .error .notHydrated

/-- Modelled from the spec: `WorkspaceScopedResponse.get_resources`, as
for `get_metadata`. -/
def get_resources (tr : TriggerResponse) :
    Except HydrationError TriggerResponseResources :=
  match tr.resources with
  | some rs => .ok rs
  | none => .error .notHydrated

/-- Property `TriggerResponse.event_filter`:
`self.get_metadata().event_filter`. -/
def TriggerResponse.event_filter (tr : TriggerResponse) :
    Except HydrationError ConfigDict :=
  (get_metadata tr).map fun md => md.event_filter

/-- Property `TriggerResponse.event_source`:
`self.get_resources().event_source`. -/
def TriggerResponse.event_source (tr : TriggerResponse) :
    Except HydrationError EventSourceResponse :=
  (get_resources tr).map fun rs => rs.event_source

/-- Method `TriggerResponse.get_hydrated_version`: a full fetch through the
external metadata store, `Client().zen_store.get_trigger(self.id)`; the
store is passed explicitly as a mapping from trigger id to the stored
response. -/
def get_hydrated_version (zen_store : Nat → TriggerResponse)
    (tr : TriggerResponse) : TriggerResponse :=
  zen_store tr.id

/-! ## Claim C8: facet accessors fail NotHydrated before hydration and
succeed after -/

/-- Claim C8: for every unhydrated `TriggerResponse` (one carrying only
the body facet), the `event_source` and `event_filter` accessors fail
with the NotHydrated condition rather than returning a default or empty
value; after explicit hydration via `get_hydrated_version` against a
store whose record carries all facets, the same accessors return the
stored values without error. -/
theorem trigger_hydration_accessors (tr : TriggerResponse)
    (zen_store : Nat → TriggerResponse)
    (md : TriggerResponseMetadata) (rs : TriggerResponseResources)
    (hm : tr.metadata = none) (hr : tr.resources = none)
    (hsm : (zen_store tr.id).metadata = some md)
    (hsr : (zen_store tr.id).resources = some rs) :
    TriggerResponse.event_filter tr = .error .notHydrated ∧
    TriggerResponse.event_source tr = .error .notHydrated ∧
    TriggerResponse.event_filter (get_hydrated_version zen_store tr) =
      .ok md.event_filter ∧
    TriggerResponse.event_source (get_hydrated_version zen_store tr) =
      .ok rs.event_source := by
  unfold TriggerResponse.event_filter TriggerResponse.event_source
    get_metadata get_resources get_hydrated_version
  rw [hm, hr, hsm, hsr]
  exact ⟨rfl, rfl, rfl, rfl⟩

/-- The body facet shared by the C8 witness records. -/
def sampleBody : TriggerResponseBody :=
  { event_source_flavor := "scheduler", action_flavor := "pipeline_run",
    action_subtype := "pipeline_run", is_active := true }

/-- The unhydrated response of the C8 witness. -/
def unhydratedTrigger : TriggerResponse :=
  { id := 11, name := "nightly", body := sampleBody }

/-- The metadata facet stored for the C8 witness. -/
def sampleMetadata : TriggerResponseMetadata :=
  { event_filter := [("cron", "hourly")], action := [("pipeline", "train")],
    description := "retrain nightly" }

/-- The resources facet stored for the C8 witness. -/
def sampleResources : TriggerResponseResources :=
  { event_source := { event_source_uuid := 5 } }

/-- The metadata store of the C8 witness: every id resolves to the fully
hydrated record. -/
def sampleStore : Nat → TriggerResponse := fun _ =>
  { id := 11, name := "nightly", body := sampleBody,
    metadata := some sampleMetadata, resources := some sampleResources }

/-- Witness for C8 at the concrete unhydrated response and store. -/
theorem trigger_hydration_accessors_witness :
    unhydratedTrigger.metadata = none ∧
    unhydratedTrigger.resources = none ∧
    (TriggerResponse.event_filter unhydratedTrigger = .error .notHydrated ∧
    TriggerResponse.event_source unhydratedTrigger = .error .notHydrated ∧
    TriggerResponse.event_filter
        (get_hydrated_version sampleStore unhydratedTrigger) =
      .ok sampleMetadata.event_filter ∧
    TriggerResponse.event_source
        (get_hydrated_version sampleStore unhydratedTrigger) =
      .ok sampleResources.event_source) :=
  ⟨rfl, rfl,
    trigger_hydration_accessors unhydratedTrigger sampleStore
      sampleMetadata sampleResources rfl rfl rfl rfl⟩

/-! ## Claim C10: updates cannot change the event source or action flavor -/

/-- The persisted trigger record: the `TriggerBase` fields together with
the mutable `is_active` flag. -/
structure TriggerRecord where
  name : String
  description : String := ""
  event_source_id : Nat
  event_filter : ConfigDict
  action : ConfigDict
  action_flavor : String
  action_subtype : String
  is_active : Bool
  deriving DecidableEq, Repr

/-- Model `TriggerUpdate`: the partial-update variant; it exposes exactly the
five optional fields `name`, `description`, `event_filter`, `action` and
`is_active`, all defaulting to unset. -/
structure TriggerUpdate where
  name : Option String := none
  description : Option String := none
  event_filter : Option ConfigDict := none
  action : Option ConfigDict := none
  is_active : Option Bool := none
  deriving DecidableEq, Repr

/-- Modelled from the spec: applying a `TriggerUpdate` to a stored trigger
record with merge-patch semantics (the store's update operation is not
under `src/`; the spec: "unset fields leave existing values unchanged").
Each set field overwrites the stored value; `TriggerUpdate` carries no
`event_source_id`, `action_flavor` or `action_subtype` field, so those
are copied from the stored record. -/
def applyTriggerUpdate (rec : TriggerRecord) (upd : TriggerUpdate) :
    TriggerRecord :=
  { name := upd.name.getD rec.name,
    description := upd.description.getD rec.description,
    event_source_id := rec.event_source_id,
    event_filter := upd.event_filter.getD rec.event_filter,
    action := upd.action.getD rec.action,
    action_flavor := rec.action_flavor,
    action_subtype := rec.action_subtype,
    is_active := upd.is_active.getD rec.is_active }

/-- Claim C10: `TriggerUpdate` exposes only the fields `name`,
`description`, `event_filter`, `action` and `is_active` (see its
definition above); for every update applied to an existing trigger
record, the record's `event_source_id`, `action_flavor` and
`action_subtype` are unchanged — no update can modify them. -/
theorem trigger_update_frame (rec : TriggerRecord) (upd : TriggerUpdate) :
    (applyTriggerUpdate rec upd).event_source_id = rec.event_source_id ∧
    (applyTriggerUpdate rec upd).action_flavor = rec.action_flavor ∧
    (applyTriggerUpdate rec upd).action_subtype = rec.action_subtype :=
  ⟨rfl, rfl, rfl⟩
